import Mathlib

/-!
# Model synchronization and service-registry reconciliation engine

A shallow embedding of the provider-configuration core of the repository:
the model sync engine (`services/model_sync_service.py`), the available-models
store (`infrastructure/repositories/supabase/available_models_repository.py`),
the service-registry reconciler (`services/service_registry_service.py`) and
the `GET /models/available` route (`api/routes/get_models_available.py`).

Timestamps are modelled as natural numbers (`datetime.now()` becomes an
explicit parameter), monetary costs as rationals, nullable columns as
`Option`, and fallible operations as `Except`.
-/

namespace Archon

/-- A raw model record as fetched from the remote aggregator.

The class `ProviderModel` (`models/openrouter_models.py`) is not part of the
sources here; its field set is reconstructed from the attribute reads in
`ModelSyncService._convert_provider_model_to_dict`, which accesses `provider`,
`model_id`, `display_name`, `description`, `context_length`, `input_cost`,
`output_cost`, `supports_vision`, `supports_tools`, `supports_reasoning` and
`is_free`. The `is_embedding` field is Modelled from the spec: the spec says
the flag may be "explicitly provided" on the raw record, so it is carried as
an `Option Bool`; the converter under `src/` never reads it. -/
structure RawModel where
  provider : String
  model_id : String
  display_name : String
  description : Option String
  context_length : Nat
  input_cost : Rat
  output_cost : Rat
  supports_vision : Bool
  supports_tools : Bool
  supports_reasoning : Bool
  is_free : Bool
  is_embedding : Option Bool
  deriving Repr, DecidableEq

/-- The dictionary produced by `_convert_provider_model_to_dict` and consumed
by `bulk_sync_models` (also the shape of the hardcoded local-model dicts in
`sync_local_models`). -/
structure ModelDict where
  provider : String
  model_id : String
  model_string : String
  display_name : String
  description : Option String
  context_length : Nat
  input_cost : Rat
  output_cost : Rat
  supports_vision : Bool
  supports_tools : Bool
  supports_reasoning : Bool
  is_embedding : Bool
  is_free : Bool
  cost_tier : String
  source : String
  deriving Repr, DecidableEq

/-- One row of the `available_models` table. -/
structure StoredModel where
  provider : String
  model_id : String
  model_string : String
  display_name : String
  description : Option String
  context_length : Nat
  input_cost : Rat
  output_cost : Rat
  supports_vision : Bool
  supports_tools : Bool
  supports_reasoning : Bool
  is_embedding : Bool
  is_free : Bool
  cost_tier : String
  source : String
  is_active : Bool
  last_updated : Nat
  created_at : Nat
  deriving Repr, DecidableEq

/-- Python's `s[:n]` on a string: the first `n` code points. -/
def pyStrSlice (s : String) (n : Nat) : String :=
  String.mk (s.toList.take n)

/-- `model.description[:500] if model.description else None`: Python treats
both `None` and the empty string as falsy. -/
def truncateDescription : Option String → Option String
  | none => none
  | some s => if s = "" then none else some (pyStrSlice s 500)

/-- Python's `needle in hay` on strings (substring containment). Python
strings are sequences of code points, so the string functions here work on
`toList`. -/
def pyIn (needle hay : String) : Bool :=
  decide (needle.toList <:+: hay.toList)

/-- Python's `s.lower()` (ASCII-adequate, code-point-wise). -/
def pyLower (s : String) : String :=
  String.mk (s.toList.map Char.toLower)

/-- Python's `s.endswith(suffix)`. -/
def pyEndsWith (s suffix : String) : Bool :=
  decide (suffix.toList <:+ s.toList)

/-- Python's `s.startswith(pre)`. -/
def pyStartsWith (s pre : String) : Bool :=
  decide (pre.toList <+: s.toList)

/-- Python's `s.replace(old, new)` for single-character arguments, as used
by the reconciler's `service_name.replace('_', ' ')`. -/
def pyReplaceChar (s : String) (old new : Char) : String :=
  String.mk (s.toList.map (fun c => if c = old then new else c))

/-- The cost-tier derivation at the head of `_convert_provider_model_to_dict`
(`model_sync_service.py` lines 346-354): `is_free` wins, then thresholds at
0.5 and 5 dollars per million tokens. -/
def cost_tier_of (is_free : Bool) (input_cost : Rat) : String :=
  if is_free then "free"
  else if input_cost < 0.5 then "low"
  else if input_cost < 5 then "medium"
  else "high"

/-- `ModelSyncService._convert_provider_model_to_dict`
(`model_sync_service.py` lines 337-372). `input_cost`/`output_cost` are
per-million upstream and stored per-token; `is_embedding` is inferred from
the model id (`model.model_id and 'embedding' in model.model_id.lower()`,
where an empty id is falsy); the source never consults `model.is_embedding`. -/
def convertProviderModelToDict (model : RawModel) : ModelDict :=
  { provider := model.provider
    model_id := model.model_id
    model_string := model.provider ++ ":" ++ model.model_id
    display_name := model.display_name
    description := truncateDescription model.description
    context_length := model.context_length
    input_cost := if model.input_cost ≠ 0 then model.input_cost / 1000000 else 0
    output_cost := if model.output_cost ≠ 0 then model.output_cost / 1000000 else 0
    supports_vision := model.supports_vision
    supports_tools := model.supports_tools
    supports_reasoning := model.supports_reasoning
    is_embedding := decide (model.model_id ≠ "") && pyIn "embedding" (pyLower model.model_id)
    is_free := model.is_free
    cost_tier := cost_tier_of model.is_free model.input_cost
    source := "openrouter" }

/-- Definition following the spec's words, for comparison with the source's
converter: "`is_embedding` inferred when `"embedding"` appears in `model_id`
(case-insensitive) unless explicitly provided" — an explicitly provided flag
would take precedence over the inference. -/
def spec_is_embedding (model : RawModel) : Bool :=
  match model.is_embedding with
  | some b => b
  | none => pyIn "embedding" (pyLower model.model_id)

/-! ## Model record store (`available_models_repository.py`) -/

/-- The row written by `bulk_sync_models` for one input dict
(`available_models_repository.py` lines 188-207): every mutable field is
overwritten, `source` comes from the call's `source` argument (not from the
dict), `is_active` is unconditionally `true`, and `last_updated`/`created_at`
are refreshed to the current time. -/
def formatModelRow (now : Nat) (source : String) (m : ModelDict) : StoredModel :=
  { provider := m.provider
    model_id := m.model_id
    model_string := m.model_string
    display_name := m.display_name
    description := m.description
    context_length := m.context_length
    input_cost := m.input_cost
    output_cost := m.output_cost
    supports_vision := m.supports_vision
    supports_tools := m.supports_tools
    supports_reasoning := m.supports_reasoning
    is_embedding := m.is_embedding
    is_free := m.is_free
    cost_tier := m.cost_tier
    source := source
    is_active := true
    last_updated := now
    created_at := now }

/-- Whether a stored row collides with a dict on the upsert conflict key
`(provider, model_id)`. -/
def keyMatches (m : ModelDict) (r : StoredModel) : Bool :=
  r.provider == m.provider && r.model_id == m.model_id

/-- One upsert step of the `on_conflict='provider,model_id'` bulk upsert:
replace every row that collides on the conflict key, or append a fresh row. -/
def upsertRow (now : Nat) (source : String) (db : List StoredModel) (m : ModelDict) :
    List StoredModel :=
  if db.any (keyMatches m) then
    db.map (fun r => if keyMatches m r then formatModelRow now source m else r)
  else
    db ++ [formatModelRow now source m]

/-- `bulk_sync_models` (`available_models_repository.py` lines 171-223):
format every dict and upsert the batch by `(provider, model_id)`; the
returned count is the number of rows in the upsert payload (the Supabase
response contains one row per input row). The empty batch returns 0. -/
def bulk_sync_models (now : Nat) (models_data : List ModelDict) (source : String)
    (db : List StoredModel) : List StoredModel × Nat :=
  if models_data = [] then (db, 0)
  else (models_data.foldl (upsertRow now source) db, models_data.length)

/-- Modelled from the spec: the Postgres function
`deactivate_models_not_in_sync` invoked through `deactivate_stale_models`
(`available_models_repository.py` lines 225-249) is a database migration that
is not among the sources. Per spec §4.2, a row is marked inactive exactly
when its `source` equals the source being synced and its `last_updated` is
strictly before the sync's start timestamp. -/
def deactivateRow (source : String) (sync_time : Nat) (r : StoredModel) : StoredModel :=
  if r.source = source ∧ r.last_updated < sync_time then
    { r with is_active := false }
  else r

/-- Modelled from the spec: the whole deactivation sweep applies
`deactivateRow` to every row of the table; the returned count is the number
of rows the sweep flipped from active to inactive. -/
def deactivate_stale_models (source : String) (sync_time : Nat)
    (db : List StoredModel) : List StoredModel × Nat :=
  (db.map (deactivateRow source sync_time),
   (db.filter (fun r => r.is_active && r.source == source &&
      decide (r.last_updated < sync_time))).length)

/-- `set_model_active` (`available_models_repository.py` lines 251-272):
update `is_active` and `last_updated` on every row whose `model_string`
matches, and report whether any row was affected. -/
def set_model_active (now : Nat) (model_string : String) (is_active : Bool)
    (db : List StoredModel) : List StoredModel × Bool :=
  (db.map (fun r =>
      if r.model_string == model_string then
        { r with is_active := is_active, last_updated := now }
      else r),
   db.any (fun r => r.model_string == model_string))

/-- `get_providers_with_api_keys` (`available_models_repository.py` lines
311-338): empty provider list returns `[]`; otherwise the active rows of the
listed providers, ordered by provider, then cost tier, then display name.
The deterministic sort is kept abstractly as a stable insertion sort on the
same triple key. -/
def rowLE (a b : StoredModel) : Bool :=
  if a.provider ≠ b.provider then a.provider ≤ b.provider
  else if a.cost_tier ≠ b.cost_tier then a.cost_tier ≤ b.cost_tier
  else a.display_name ≤ b.display_name

/-- Stable insertion of one element into a sorted list. -/
def orderedInsert (a : StoredModel) : List StoredModel → List StoredModel
  | [] => [a]
  | b :: bs => if rowLE a b then a :: b :: bs else b :: orderedInsert a bs

/-- Stable insertion sort used to model the repository's `order(...)` chain. -/
def sortRows : List StoredModel → List StoredModel
  | [] => []
  | a :: as => orderedInsert a (sortRows as)

def get_providers_with_api_keys (api_key_providers : List String)
    (db : List StoredModel) : List StoredModel :=
  if api_key_providers = [] then []
  else sortRows (db.filter (fun r =>
    api_key_providers.contains r.provider && r.is_active))

/-! ## Sync engine (`model_sync_service.py`) -/

/-- The sub-report dictionaries built by `sync_from_openrouter` and
`sync_local_models`, restricted to the keys `full_sync` reads back with
`.get`: `status`, `models_synced`, `models_deactivated` (absent from the
local reports and from the exception-conversion dicts, hence an `Option`)
and `error`. -/
structure SubReport where
  status : String
  models_synced : Nat
  models_deactivated : Option Nat
  error : Option String
  deriving Repr, DecidableEq

/-- The combined dictionary returned by `full_sync`
(`model_sync_service.py` lines 256-264). -/
structure CombinedReport where
  status : String
  total_models_synced : Nat
  models_deactivated : Nat
  openrouter_result : SubReport
  local_result : SubReport
  deriving Repr, DecidableEq

/-- The database updates of one `sync_from_openrouter` pass: bulk-upsert the
converted rows at time `upsert_time`, then sweep with the pass's start
time (`model_sync_service.py` lines 60-83 call `deactivate_stale_models`
with `sync_time=start_time`). -/
def sync_pass_db (start_time upsert_time : Nat) (rows : List ModelDict)
    (db : List StoredModel) : List StoredModel :=
  (deactivate_stale_models "openrouter" start_time
    (bulk_sync_models upsert_time rows "openrouter" db).1).1

/-- `sync_from_openrouter` (`model_sync_service.py` lines 25-115). The
remote fetch is passed in as an `Except` (an upstream exception lands in the
outermost `except` branch, which returns an error-status dict with zero
counts). On success: convert every model, bulk-upsert with
`source='openrouter'`, deactivate stale rows against the pass's start time.
Per-model conversion and the bulk upsert are total in the embedding, so the
`Database sync failed` error branch (lines 67-77) has no counterpart. -/
def sync_from_openrouter (start_time upsert_time : Nat)
    (fetch : Except String (List (String × List RawModel)))
    (db : List StoredModel) : SubReport × List StoredModel :=
  match fetch with
  | .error e =>
    ({ status := "error"
       error := some ("OpenRouter sync failed: " ++ e)
       models_synced := 0
       models_deactivated := some 0 }, db)
  | .ok all_providers =>
    let models_to_sync :=
      (all_providers.flatMap (fun p => p.2)).map convertProviderModelToDict
    let (db1, sync_count) := bulk_sync_models upsert_time models_to_sync "openrouter" db
    let (db2, deactivated_count) := deactivate_stale_models "openrouter" start_time db1
    ({ status := "success"
       models_synced := sync_count
       models_deactivated := some deactivated_count
       error := none }, db2)

/-- The four hardcoded local models of `sync_local_models`
(`model_sync_service.py` lines 127-196). -/
def local_models : List ModelDict :=
  [ { provider := "ollama", model_id := "llama3", model_string := "ollama:llama3"
      display_name := "Llama 3 (Local)"
      description := some "Local Llama 3 model for offline inference"
      context_length := 8192, input_cost := 0, output_cost := 0
      is_free := true, cost_tier := "free", is_embedding := false
      supports_vision := false, supports_tools := true, supports_reasoning := false
      source := "local" },
    { provider := "ollama", model_id := "mistral", model_string := "ollama:mistral"
      display_name := "Mistral (Local)"
      description := some "Local Mistral model for offline inference"
      context_length := 8192, input_cost := 0, output_cost := 0
      is_free := true, cost_tier := "free", is_embedding := false
      supports_vision := false, supports_tools := true, supports_reasoning := false
      source := "local" },
    { provider := "ollama", model_id := "codellama", model_string := "ollama:codellama"
      display_name := "Code Llama (Local)"
      description := some "Local Code Llama model specialized for programming tasks"
      context_length := 8192, input_cost := 0, output_cost := 0
      is_free := true, cost_tier := "free", is_embedding := false
      supports_vision := false, supports_tools := true, supports_reasoning := false
      source := "local" },
    { provider := "ollama", model_id := "phi3", model_string := "ollama:phi3"
      display_name := "Phi-3 (Local)"
      description := some "Local Microsoft Phi-3 model optimized for efficiency"
      context_length := 8192, input_cost := 0, output_cost := 0
      is_free := true, cost_tier := "free", is_embedding := false
      supports_vision := false, supports_tools := true, supports_reasoning := false
      source := "local" } ]

/-- `sync_local_models` (`model_sync_service.py` lines 117-227): bulk-upsert
the fixed local set with `source='local'`; no deactivation sweep. The
success dict carries no `models_deactivated` key. -/
def sync_local_models (now : Nat) (db : List StoredModel) :
    SubReport × List StoredModel :=
  let (db1, sync_count) := bulk_sync_models now local_models "local" db
  ({ status := "success"
     models_synced := sync_count
     models_deactivated := none
     error := none }, db1)

/-- The exception-conversion step of `full_sync`
(`model_sync_service.py` lines 248-249): a sub-task that raised is replaced
by `{'status': 'error', 'error': str(e), 'models_synced': 0}` — a dict with
no `models_deactivated` key. -/
def exceptToReport : Except String SubReport → SubReport
  | .ok rep => rep
  | .error e =>
    { status := "error", error := some e, models_synced := 0, models_deactivated := none }

/-- `full_sync` (`model_sync_service.py` lines 229-271), as a function of the
two gathered sub-task outcomes (`asyncio.gather(..., return_exceptions=True)`
yields either a report dict or an exception per branch): sum the synced
counts, take `models_deactivated` from the openrouter result alone
(`.get('models_deactivated', 0)`), and combine the status as `'success'`
exactly when both sub-statuses are `'success'`, else `'partial'`. -/
def full_sync (openrouter_outcome local_outcome : Except String SubReport) :
    CombinedReport :=
  let openrouter_result := exceptToReport openrouter_outcome
  let local_result := exceptToReport local_outcome
  { status :=
      if openrouter_result.status = "success" ∧ local_result.status = "success"
      then "success" else "partial"
    total_models_synced := openrouter_result.models_synced + local_result.models_synced
    models_deactivated := openrouter_result.models_deactivated.getD 0
    openrouter_result := openrouter_result
    local_result := local_result }

/-- `ModelSyncService.deactivate_model` (`model_sync_service.py` lines
445-467): a plain flip through `set_model_active`, returning the
repository's row-affected boolean (exceptions are caught and become
`false`; the embedding is total). -/
def deactivate_model (now : Nat) (model_string : String)
    (db : List StoredModel) : List StoredModel × Bool :=
  set_model_active now model_string false db

/-- `ModelSyncService.reactivate_model` (`model_sync_service.py` lines
469-491). -/
def reactivate_model (now : Nat) (model_string : String)
    (db : List StoredModel) : List StoredModel × Bool :=
  set_model_active now model_string true db

/-! ## Service registry reconciler (`service_registry_service.py`) -/

/-- The fields of `ServiceRegistration`
(`service_registry_service.py` lines 13-29) that the reconciler populates. -/
structure ServiceRegistration where
  service_name : String
  display_name : String
  description : Option String
  icon : Option String
  category : String
  service_type : String
  model_type : String
  location : Option String
  supports_temperature : Bool
  supports_max_tokens : Bool
  default_model : Option String
  cost_profile : Option String
  owner_team : Option String
  deriving Repr, DecidableEq

/-- One row of the `unregistered_services` view consumed by
`sync_registry_with_model_configs`: a service that has a model configuration
but no registry entry. -/
structure UnregisteredService where
  service_name : String
  model_string : String
  deriving Repr, DecidableEq

/-- Python's `str.title()` for the ASCII names at hand: the first letter of
every alphabetic run is uppercased and the rest lowercased. -/
def pyTitleChars : Bool → List Char → List Char
  | _, [] => []
  | prev_alpha, c :: cs =>
    if c.isAlpha then
      (if prev_alpha then c.toLower else c.toUpper) :: pyTitleChars true cs
    else
      c :: pyTitleChars false cs

def pyTitle (s : String) : String :=
  String.mk (pyTitleChars false s.toList)

/-- The classification-and-registration record built for one unregistered
service (`service_registry_service.py` lines 394-443): agent naming wins
(`endswith('_agent') or startswith('agent_')`), then the case-sensitive
`'embedding' in service_name or 'embedding' in model_string` check, else a
backend service; every branch registers `default_model = model_string`,
`cost_profile = 'medium'` and `owner_team = 'auto-discovered'`. -/
def mkAutoRegistration (service_name model_string : String) : ServiceRegistration :=
  let is_agent := pyEndsWith service_name "_agent" || pyStartsWith service_name "agent_"
  let is_embedding := pyIn "embedding" service_name || pyIn "embedding" model_string
  let base : ServiceRegistration :=
    { service_name := service_name
      display_name := pyTitle (pyReplaceChar service_name '_' ' ')
      description := some ("Auto-discovered using " ++ model_string)
      icon := some "🔧"
      category := "service"
      service_type := "backend_service"
      model_type := "llm"
      location := some "main_server"
      supports_temperature := true
      supports_max_tokens := true
      default_model := some model_string
      cost_profile := some "medium"
      owner_team := some "auto-discovered" }
  if is_agent then
    { base with
        icon := some "🤖"
        category := "agent"
        service_type := "pydantic_ai"
        model_type := "llm"
        location := some "agents_server"
        supports_temperature := true
        supports_max_tokens := true }
  else if is_embedding then
    { base with
        icon := some "🧩"
        category := "service"
        service_type := "embedding_service"
        model_type := "embedding"
        location := some "main_server"
        supports_temperature := false
        supports_max_tokens := false }
  else base

/-- The result dict of `sync_registry_with_model_configs`, extended with the
list of registrations actually performed (the successful
`register_service` calls, in order). -/
structure RegistrySyncOutcome where
  status : String
  services_discovered : Nat
  services_registered : Nat
  registrations : List ServiceRegistration
  deriving Repr, DecidableEq

/-- `sync_registry_with_model_configs` (`service_registry_service.py` lines
383-464): walk the discovered list; each `register_service` call may fail
(modelled by the `register_ok` oracle), in which case the inner `except`
logs and the loop continues; only successes are counted. -/
def sync_registry_with_model_configs (unregistered : List UnregisteredService)
    (register_ok : UnregisteredService → Bool) : RegistrySyncOutcome :=
  let final := unregistered.foldl
    (fun (acc : Nat × List ServiceRegistration) s =>
      if register_ok s then
        (acc.1 + 1, acc.2 ++ [mkAutoRegistration s.service_name s.model_string])
      else acc)
    (0, [])
  { status := "success"
    services_discovered := unregistered.length
    services_registered := final.1
    registrations := final.2 }

/-! ## `GET /models/available` (`api/routes/get_models_available.py`) -/

/-- The response row the route builds from one database model. -/
structure AvailableModel where
  provider : String
  model : String
  model_string : String
  display_name : String
  has_api_key : Bool
  cost_tier : String
  estimated_cost_per_1k : Option (Rat × Rat)
  is_embedding : Bool
  model_id : String
  description : Option String
  context_length : Nat
  input_cost : Rat
  output_cost : Rat
  supports_vision : Bool
  supports_tools : Bool
  supports_reasoning : Bool
  deriving Repr, DecidableEq

/-- The per-row construction of `get_available_models`
(`get_models_available.py` lines 33-62). -/
def availableModelRow (active_providers : List String) (r : StoredModel) :
    AvailableModel :=
  { provider := r.provider
    model := r.model_id
    model_string := r.model_string
    display_name := r.display_name
    has_api_key := active_providers.contains r.provider || r.provider == "ollama"
    cost_tier := r.cost_tier
    estimated_cost_per_1k :=
      if r.input_cost ≠ 0 ∧ 0 < r.input_cost then
        some (r.input_cost * 1000, r.output_cost * 1000)
      else none
    is_embedding := r.is_embedding
    model_id := r.model_id
    description := r.description
    context_length := r.context_length
    input_cost := if r.input_cost ≠ 0 then r.input_cost * 1000000 else 0
    output_cost := if r.output_cost ≠ 0 then r.output_cost * 1000000 else 0
    supports_vision := r.supports_vision
    supports_tools := r.supports_tools
    supports_reasoning := r.supports_reasoning }

/-- An HTTP error outcome: status code and detail string. -/
abbrev HttpError := Nat × String

/-- `str()` of a raised `HTTPException` as seen by the handler's own
`except` block: `"{status_code}: {detail}"`. -/
def httpErrorStr (e : HttpError) : String :=
  toString e.1 ++ ": " ++ e.2

/-- The body of the `try` block of `get_available_models`
(`get_models_available.py` lines 21-69): 404 when no provider has active
credentials, 404 when the filtered model list comes back empty, otherwise
the converted rows. -/
def get_available_models_try (active_providers : List String)
    (db : List StoredModel) : Except HttpError (List AvailableModel) :=
  if active_providers.isEmpty then
    .error (404, "No providers with active API keys")
  else
    let db_models := get_providers_with_api_keys active_providers db
    let available_models := db_models.map (availableModelRow active_providers)
    if available_models.isEmpty then
      .error (404, "No available models found in database for configured providers")
    else
      .ok available_models

/-- The whole route handler (`get_models_available.py` lines 15-76): the
`except Exception` clause catches every exception raised in the `try`
block — including the two `HTTPException(404)`s, since FastAPI's
`HTTPException` subclasses `Exception` — and re-raises an
`HTTPException(500)` wrapping `str(e)`. -/
def get_available_models (active_providers : List String)
    (db : List StoredModel) : Except HttpError (List AvailableModel) :=
  match get_available_models_try active_providers db with
  | .ok v => .ok v
  | .error e => .error (500, "Failed to get available models: " ++ httpErrorStr e)

/-- The status code a client observes from the route outcome. -/
def responseStatus : Except HttpError (List AvailableModel) → Nat
  | .ok _ => 200
  | .error e => e.1

/-! ## Concrete sample data for witnesses and counterexamples -/

/-- A remote model with a nonzero cost, not free. -/
def sampleRaw : RawModel :=
  { provider := "openai", model_id := "gpt-4", display_name := "GPT-4"
    description := some "OpenAI flagship model", context_length := 8192
    input_cost := 0, output_cost := 0
    supports_vision := false, supports_tools := true, supports_reasoning := false
    is_free := false, is_embedding := none }

/-- A raw record carrying an explicitly provided `is_embedding` flag whose
model id does not contain the substring `embedding`. -/
def explicitEmbeddingRaw : RawModel :=
  { provider := "openai", model_id := "gpt-4", display_name := "GPT-4"
    description := none, context_length := 8192
    input_cost := 0, output_cost := 0
    supports_vision := false, supports_tools := false, supports_reasoning := false
    is_free := false, is_embedding := some true }

/-- A stored row that was manually deactivated before the next sync pass. -/
def preDeactivatedRow : StoredModel :=
  { provider := "openai", model_id := "gpt-4o", model_string := "openai:gpt-4o"
    display_name := "GPT-4o", description := none, context_length := 128000
    input_cost := 0, output_cost := 0
    supports_vision := true, supports_tools := true, supports_reasoning := false
    is_embedding := false, is_free := false, cost_tier := "low"
    source := "openrouter", is_active := false, last_updated := 0, created_at := 0 }

/-- The catalog dict for the same `(provider, model_id)` key as
`preDeactivatedRow`, as the next sync pass would upsert it. -/
def catalogDictGpt4o : ModelDict :=
  { provider := "openai", model_id := "gpt-4o", model_string := "openai:gpt-4o"
    display_name := "GPT-4o", description := none, context_length := 128000
    input_cost := 0, output_cost := 0
    supports_vision := true, supports_tools := true, supports_reasoning := false
    is_embedding := false, is_free := false, cost_tier := "low"
    source := "openrouter" }

/-- A stored local model row, active. -/
def sampleStored : StoredModel :=
  { provider := "ollama", model_id := "llama3", model_string := "ollama:llama3"
    display_name := "Llama 3 (Local)", description := none, context_length := 8192
    input_cost := 0, output_cost := 0
    supports_vision := false, supports_tools := true, supports_reasoning := false
    is_embedding := false, is_free := true, cost_tier := "free"
    source := "local", is_active := true, last_updated := 3, created_at := 3 }

/-! ## Helper lemmas -/

/-- A row carrying the given conflict key, active, last updated at `t`. -/
def rowKeyActive (p i : String) (t : Nat) (r : StoredModel) : Prop :=
  r.provider = p ∧ r.model_id = i ∧ r.is_active = true ∧ r.last_updated = t

theorem formatModelRow_key (now : Nat) (source : String) (m : ModelDict) :
    rowKeyActive m.provider m.model_id now (formatModelRow now source m) :=
  ⟨rfl, rfl, rfl, rfl⟩

theorem keyMatches_eq {m : ModelDict} {r : StoredModel}
    (h : keyMatches m r = true) : r.provider = m.provider ∧ r.model_id = m.model_id := by
  simpa [keyMatches] using h

theorem upsertRow_keeps {p i : String} {t : Nat} (source : String) (m : ModelDict)
    {db : List StoredModel} (h : ∃ r ∈ db, rowKeyActive p i t r) :
    ∃ r ∈ upsertRow t source db m, rowKeyActive p i t r := by
  obtain ⟨r, hr, hp, hi, ha, ht⟩ := h
  unfold upsertRow
  by_cases hany : db.any (keyMatches m)
  · rw [if_pos hany]
    refine ⟨if keyMatches m r then formatModelRow t source m else r,
      List.mem_map_of_mem _ hr, ?_⟩
    by_cases hk : keyMatches m r = true
    · obtain ⟨h1, h2⟩ := keyMatches_eq hk
      rw [if_pos hk]
      refine ⟨?_, ?_, rfl, rfl⟩
      · show m.provider = p
        rw [← h1, hp]
      · show m.model_id = i
        rw [← h2, hi]
    · rw [if_neg hk]
      exact ⟨hp, hi, ha, ht⟩
  · rw [if_neg hany]
    exact ⟨r, List.mem_append_left _ hr, hp, hi, ha, ht⟩

theorem upsertRow_mem (t : Nat) (source : String) (m : ModelDict)
    (db : List StoredModel) :
    ∃ r ∈ upsertRow t source db m, rowKeyActive m.provider m.model_id t r := by
  unfold upsertRow
  by_cases hany : db.any (keyMatches m)
  · rw [if_pos hany]
    obtain ⟨r0, hr0, hk0⟩ := List.any_eq_true.mp hany
    refine ⟨formatModelRow t source m, ?_, formatModelRow_key t source m⟩
    exact List.mem_map.mpr ⟨r0, hr0, if_pos hk0⟩
  · rw [if_neg hany]
    exact ⟨formatModelRow t source m,
      List.mem_append_right _ (List.mem_singleton_self _), formatModelRow_key t source m⟩

theorem foldl_upsert_keeps {p i : String} {t : Nat} (source : String)
    (rows : List ModelDict) {db : List StoredModel}
    (h : ∃ r ∈ db, rowKeyActive p i t r) :
    ∃ r ∈ rows.foldl (upsertRow t source) db, rowKeyActive p i t r := by
  induction rows generalizing db with
  | nil => simpa using h
  | cons m0 ms ih => exact ih (upsertRow_keeps source m0 h)

theorem foldl_upsert_mem {t : Nat} (source : String) {rows : List ModelDict}
    (db : List StoredModel) {m : ModelDict} (hm : m ∈ rows) :
    ∃ r ∈ rows.foldl (upsertRow t source) db,
      rowKeyActive m.provider m.model_id t r := by
  induction rows generalizing db with
  | nil => cases hm
  | cons m0 ms ih =>
    rcases List.mem_cons.mp hm with h | h
    · subst h
      exact foldl_upsert_keeps source ms (upsertRow_mem t source m db)
    · exact ih (upsertRow t source db m0) h

theorem bulk_sync_mem {now : Nat} {source : String} {rows : List ModelDict}
    (db : List StoredModel) {m : ModelDict} (hm : m ∈ rows) :
    ∃ r ∈ (bulk_sync_models now rows source db).1,
      rowKeyActive m.provider m.model_id now r := by
  unfold bulk_sync_models
  have hne : ¬(rows = []) := by
    intro h
    subst h
    cases hm
  rw [if_neg hne]
  exact foldl_upsert_mem source db hm

theorem sync_pass_active {start_time upsert_time : Nat} {rows : List ModelDict}
    (db : List StoredModel) {m : ModelDict}
    (hle : start_time ≤ upsert_time) (hm : m ∈ rows) :
    ∃ r ∈ sync_pass_db start_time upsert_time rows db,
      r.provider = m.provider ∧ r.model_id = m.model_id ∧ r.is_active = true := by
  obtain ⟨r, hr, hp, hi, ha, ht⟩ :=
    @bulk_sync_mem upsert_time "openrouter" rows db m hm
  refine ⟨deactivateRow "openrouter" start_time r, ?_, ?_⟩
  · unfold sync_pass_db deactivate_stale_models
    exact List.mem_map_of_mem _ hr
  · have hcond : ¬(r.source = "openrouter" ∧ r.last_updated < start_time) := by
      rintro ⟨-, hlt⟩
      rw [ht] at hlt
      exact absurd hlt (not_lt.mpr hle)
    simp only [deactivateRow, if_neg hcond]
    exact ⟨hp, hi, ha⟩

theorem registry_foldl_spec (register_ok : UnregisteredService → Bool)
    (u : List UnregisteredService) :
    ∀ (n : Nat) (acc : List ServiceRegistration),
      u.foldl
        (fun (acc : Nat × List ServiceRegistration) s =>
          if register_ok s then
            (acc.1 + 1, acc.2 ++ [mkAutoRegistration s.service_name s.model_string])
          else acc)
        (n, acc) =
      (n + (u.filter register_ok).length,
       acc ++ (u.filter register_ok).map
        (fun s => mkAutoRegistration s.service_name s.model_string)) := by
  induction u with
  | nil => intro n acc; simp
  | cons s ss ih =>
    intro n acc
    by_cases h : register_ok s = true
    · simp only [List.foldl_cons, if_pos h, ih, List.filter_cons_of_pos h,
        List.length_cons, List.map_cons]
      refine Prod.ext ?_ ?_
      · simp only []
        omega
      · simp
    · simp only [List.foldl_cons, if_neg h, ih, List.filter_cons_of_neg h]

/-! ## Claim theorems -/

/-- C3: for every raw model converted during remote sync, the derived
cost tier is `free` when `is_free` is true, otherwise `low` below 0.5
per-million, `medium` in [0.5, 5), `high` at and above 5; in particular a
zero cost with `is_free = false` is `low`, 0.49 is `low`, 0.5 is `medium`
and 5 is `high`. -/
theorem cost_tier_thresholds :
    (∀ m : RawModel, m.is_free = true →
      (convertProviderModelToDict m).cost_tier = "free") ∧
    (∀ m : RawModel, m.is_free = false → m.input_cost < 0.5 →
      (convertProviderModelToDict m).cost_tier = "low") ∧
    (∀ m : RawModel, m.is_free = false → 0.5 ≤ m.input_cost → m.input_cost < 5 →
      (convertProviderModelToDict m).cost_tier = "medium") ∧
    (∀ m : RawModel, m.is_free = false → 5 ≤ m.input_cost →
      (convertProviderModelToDict m).cost_tier = "high") ∧
    cost_tier_of false 0 = "low" ∧
    cost_tier_of false 0.49 = "low" ∧
    cost_tier_of false 0.5 = "medium" ∧
    cost_tier_of false 5 = "high" := by
  refine ⟨?_, ?_, ?_, ?_, ?_, ?_, ?_, ?_⟩
  · intro m h
    simp [convertProviderModelToDict, cost_tier_of, h]
  · intro m h hlt
    simp [convertProviderModelToDict, cost_tier_of, h, hlt]
  · intro m h hge hlt
    simp [convertProviderModelToDict, cost_tier_of, h, not_lt.mpr hge, hlt]
  · intro m h hge
    have h5 : ¬(m.input_cost < 5) := not_lt.mpr hge
    have h05 : ¬(m.input_cost < 0.5) := by
      refine not_lt.mpr (le_trans ?_ hge)
      norm_num
    simp [convertProviderModelToDict, cost_tier_of, h, h05, h5]
  · norm_num [cost_tier_of]
  · norm_num [cost_tier_of]
  · norm_num [cost_tier_of]
  · norm_num [cost_tier_of]

/-- Witness for C3: the code evaluated at a concrete non-free model with
zero cost yields tier `low`. -/
theorem cost_tier_thresholds_witness :
    (convertProviderModelToDict sampleRaw).cost_tier = "low" :=
  cost_tier_thresholds.2.1 sampleRaw rfl (by norm_num [sampleRaw])

/-- C2: `full_sync` sums the two sub-reports' synced counts, takes
`models_deactivated` from the remote sub-report alone, combines status as
`success` exactly when both sub-statuses are `success`, and an exception in
the remote fetch becomes an error-status remote sub-report while the local
sub-report is passed through untouched, giving combined status `partial`
with `local_result.status` still `success`. -/
theorem full_sync_combines :
    (∀ o l : Except String SubReport,
      (full_sync o l).total_models_synced =
        (exceptToReport o).models_synced + (exceptToReport l).models_synced ∧
      (full_sync o l).models_deactivated =
        ((exceptToReport o).models_deactivated).getD 0 ∧
      ((full_sync o l).status = "success" ↔
        (exceptToReport o).status = "success" ∧
          (exceptToReport l).status = "success")) ∧
    (∀ (e : String) (start_time upsert_time : Nat) (db : List StoredModel)
        (local_rep : SubReport), local_rep.status = "success" →
      (sync_from_openrouter start_time upsert_time (.error e) db).1.status = "error" ∧
      (full_sync (.ok (sync_from_openrouter start_time upsert_time (.error e) db).1)
          (.ok local_rep)).local_result = local_rep ∧
      (full_sync (.ok (sync_from_openrouter start_time upsert_time (.error e) db).1)
          (.ok local_rep)).status = "partial" ∧
      (full_sync (.ok (sync_from_openrouter start_time upsert_time (.error e) db).1)
          (.ok local_rep)).local_result.status = "success") := by
  constructor
  · intro o l
    refine ⟨rfl, rfl, ?_⟩
    by_cases h : (exceptToReport o).status = "success" ∧
        (exceptToReport l).status = "success"
    · simp [full_sync, h]
    · simp only [full_sync, if_neg h]
      constructor
      · intro hc
        exact absurd hc (by decide)
      · intro hc
        exact absurd hc h
  · intro e start_time upsert_time db local_rep hl
    refine ⟨rfl, rfl, ?_, ?_⟩
    · have hne : ¬((exceptToReport (.ok (sync_from_openrouter start_time upsert_time
          (.error e) db).1)).status = "success" ∧
          (exceptToReport (.ok local_rep)).status = "success") := by
        rintro ⟨h1, -⟩
        exact absurd h1 (by simp [sync_from_openrouter, exceptToReport])
      simp [full_sync, if_neg hne]
    · simpa [full_sync, exceptToReport] using hl

/-- Witness for C2: the exception branch applied at a concrete failing
remote fetch next to a successful local sub-sync. -/
theorem full_sync_combines_witness :
    (sync_from_openrouter 0 0 (.error "connection refused") []).1.status = "error" ∧
    (full_sync (.ok (sync_from_openrouter 0 0 (.error "connection refused") []).1)
        (.ok (sync_local_models 0 []).1)).local_result = (sync_local_models 0 []).1 ∧
    (full_sync (.ok (sync_from_openrouter 0 0 (.error "connection refused") []).1)
        (.ok (sync_local_models 0 []).1)).status = "partial" ∧
    (full_sync (.ok (sync_from_openrouter 0 0 (.error "connection refused") []).1)
        (.ok (sync_local_models 0 []).1)).local_result.status = "success" :=
  full_sync_combines.2 "connection refused" 0 0 [] (sync_local_models 0 []).1 rfl

/-- C10: whatever the two sub-sync outcomes are — error reports or raised
exceptions, even both at once — the combined `full_sync` status is
`success` or `partial`, never `error`; with both sub-syncs failing it is
`partial`. -/
theorem full_sync_status_never_error :
    (∀ o l : Except String SubReport,
      (full_sync o l).status = "success" ∨ (full_sync o l).status = "partial") ∧
    (full_sync (.error "remote task crashed") (.error "local task crashed")).status
      = "partial" ∧
    (full_sync
        (.ok { status := "error", models_synced := 0, models_deactivated := some 0
               error := some "OpenRouter sync failed: fetch" })
        (.ok { status := "error", models_synced := 0, models_deactivated := none
               error := some "Local models sync failed: db" })).status = "partial" := by
  refine ⟨?_, rfl, rfl⟩
  intro o l
  by_cases h : (exceptToReport o).status = "success" ∧
      (exceptToReport l).status = "success"
  · left
    simp [full_sync, h]
  · right
    simp [full_sync, if_neg h]

/-- C8: `deactivate_model` and `reactivate_model` return a boolean (the
embedding is total, mirroring the service's catch-all `except` blocks):
`false` exactly when no stored model carries the model string, `true` when
the flip affected an existing record — and the affected records do end up
with the requested flag. -/
theorem manual_flip_semantics :
    ∀ (now : Nat) (model_string : String) (db : List StoredModel),
      ((deactivate_model now model_string db).2 = true ↔
        ∃ r ∈ db, r.model_string = model_string) ∧
      ((reactivate_model now model_string db).2 = true ↔
        ∃ r ∈ db, r.model_string = model_string) ∧
      (∀ r ∈ (deactivate_model now model_string db).1,
        r.model_string = model_string → r.is_active = false) ∧
      (∀ r ∈ (reactivate_model now model_string db).1,
        r.model_string = model_string → r.is_active = true) := by
  intro now model_string db
  refine ⟨?_, ?_, ?_, ?_⟩
  · simp [deactivate_model, set_model_active, List.any_eq_true]
  · simp [reactivate_model, set_model_active, List.any_eq_true]
  · intro r hr hms
    simp only [deactivate_model, set_model_active, List.mem_map] at hr
    obtain ⟨a, ha, rfl⟩ := hr
    by_cases h : a.model_string == model_string
    · simp [h]
    · rw [if_neg h] at hms ⊢
      exact absurd hms (by simpa using h)
  · intro r hr hms
    simp only [reactivate_model, set_model_active, List.mem_map] at hr
    obtain ⟨a, ha, rfl⟩ := hr
    by_cases h : a.model_string == model_string
    · simp [h]
    · rw [if_neg h] at hms ⊢
      exact absurd hms (by simpa using h)

/-- Witness for C8: concrete flips — found model answers `true`, missing
model answers `false`. -/
theorem manual_flip_semantics_witness :
    (deactivate_model 7 "ollama:llama3" [sampleStored]).2 = true ∧
    ¬((reactivate_model 7 "openai:gpt-5" [sampleStored]).2 = true) :=
  ⟨(manual_flip_semantics 7 "ollama:llama3" [sampleStored]).1.mpr
      ⟨sampleStored, List.mem_singleton_self _, rfl⟩,
    fun h => by
      obtain ⟨r, hr, hms⟩ :=
        (manual_flip_semantics 7 "openai:gpt-5" [sampleStored]).2.1.mp h
      rw [List.mem_singleton] at hr
      subst hr
      exact absurd hms (by decide)⟩

/-- C9 (code bug): the `GET /models/available` handler raises its 404s
inside the `try` block, and the catch-all `except Exception` rewraps them,
so a client observes HTTP 500 — not the 404 the code's own raise statements
(and the spec) intend — both when no provider has active credentials and
when providers exist but the database holds no matching models. -/
theorem models_available_route_500 :
    (∀ db : List StoredModel,
      get_available_models_try [] db =
        .error (404, "No providers with active API keys") ∧
      responseStatus (get_available_models [] db) = 500) ∧
    (∀ active_providers : List String,
      responseStatus (get_available_models active_providers []) = 500) := by
  constructor
  · intro db
    exact ⟨rfl, rfl⟩
  · intro active_providers
    by_cases hp : active_providers.isEmpty
    · simp [get_available_models, get_available_models_try, hp, responseStatus]
    · have hne : ¬(active_providers = []) := by
        simpa [List.isEmpty_iff] using hp
      simp [get_available_models, get_available_models_try, hp, hne,
        get_providers_with_api_keys, sortRows, responseStatus]

/-- C1: a deactivation sweep flips a record from active to inactive only if
the record's source equals the source being synced and its `last_updated`
is strictly before the sync's start time; hence an openrouter sweep never
touches the `is_active` flag of a `local` record, and a full remote pass
(upsert at a time not before its start, then sweep against the start time)
leaves every record it just upserted active. -/
theorem deactivation_sweep_scoped :
    (∀ (source : String) (sync_time : Nat) (r : StoredModel),
      r.is_active = true → (deactivateRow source sync_time r).is_active = false →
      r.source = source ∧ r.last_updated < sync_time) ∧
    (∀ (sync_time : Nat) (r : StoredModel), r.source = "local" →
      (deactivateRow "openrouter" sync_time r).is_active = r.is_active) ∧
    (∀ (start_time upsert_time : Nat) (rows : List ModelDict)
        (db : List StoredModel) (m : ModelDict),
      start_time ≤ upsert_time → m ∈ rows →
      ∃ r ∈ sync_pass_db start_time upsert_time rows db,
        r.provider = m.provider ∧ r.model_id = m.model_id ∧ r.is_active = true) := by
  refine ⟨?_, ?_, ?_⟩
  · intro source sync_time r ha hflip
    by_cases hc : r.source = source ∧ r.last_updated < sync_time
    · exact hc
    · unfold deactivateRow at hflip
      rw [if_neg hc, ha] at hflip
      cases hflip
  · intro sync_time r hl
    have hcond : ¬(r.source = "openrouter" ∧ r.last_updated < sync_time) := by
      rintro ⟨h1, -⟩
      rw [hl] at h1
      exact absurd h1 (by decide)
    simp [deactivateRow, hcond]
  · intro start_time upsert_time rows db m hle hm
    exact sync_pass_active db hle hm

/-- Witness for C1: a concrete pass over one model with start 3 and upsert
time 5 ends with the upserted record active. -/
theorem deactivation_sweep_scoped_witness :
    ∃ r ∈ sync_pass_db 3 5 [catalogDictGpt4o] [],
      r.provider = catalogDictGpt4o.provider ∧
      r.model_id = catalogDictGpt4o.model_id ∧ r.is_active = true :=
  deactivation_sweep_scoped.2.2 3 5 [catalogDictGpt4o] [] catalogDictGpt4o
    (by decide) (List.mem_singleton_self _)

/-- Counterexample for C4 as stated: a record manually deactivated
out-of-band whose `(provider, model_id)` is still in the next catalog does
NOT stay inactive — the pass's bulk upsert rewrites it with
`is_active = true` and the sweep leaves it active. -/
theorem bulk_upsert_reactivates_cex :
    preDeactivatedRow.is_active = false ∧
    catalogDictGpt4o.provider = preDeactivatedRow.provider ∧
    catalogDictGpt4o.model_id = preDeactivatedRow.model_id ∧
    (sync_pass_db 1 2 [catalogDictGpt4o] [preDeactivatedRow]).map
      (fun r => (r.model_string, r.is_active)) = [("openai:gpt-4o", true)] := by
  decide

/-- C4 (amended): a subsequent sync pass whose catalog still contains the
same `(provider, model_id)` sets the manually deactivated record's
`is_active` flag back to `true` — the bulk upsert silently reactivates it;
manual deactivation survives a sync only while the model stays out of that
source's catalog. -/
theorem sync_reactivates_when_present :
    ∀ (start_time upsert_time : Nat) (rows : List ModelDict)
      (db : List StoredModel) (r0 : StoredModel) (m : ModelDict),
      start_time ≤ upsert_time → r0 ∈ db → r0.is_active = false →
      m ∈ rows → m.provider = r0.provider → m.model_id = r0.model_id →
      ∃ r ∈ sync_pass_db start_time upsert_time rows db,
        r.provider = r0.provider ∧ r.model_id = r0.model_id ∧
        r.is_active = true := by
  intro start_time upsert_time rows db r0 m hle hr0 hact hm hp hi
  obtain ⟨r, hr, h1, h2, h3⟩ := sync_pass_active db hle hm
  exact ⟨r, hr, by rw [h1, hp], by rw [h2, hi], h3⟩

/-- Witness for C4's amended claim at the concrete deactivated record. -/
theorem sync_reactivates_when_present_witness :
    ∃ r ∈ sync_pass_db 1 2 [catalogDictGpt4o] [preDeactivatedRow],
      r.provider = preDeactivatedRow.provider ∧
      r.model_id = preDeactivatedRow.model_id ∧ r.is_active = true :=
  sync_reactivates_when_present 1 2 [catalogDictGpt4o] [preDeactivatedRow]
    preDeactivatedRow catalogDictGpt4o (by decide) (List.mem_singleton_self _)
    rfl (List.mem_singleton_self _) rfl rfl

theorem pyStrSlice_length_le (s : String) (n : Nat) :
    (pyStrSlice s n).length ≤ n := by
  show (s.toList.take n).length ≤ n
  exact List.length_take_le n s.toList

/-- Counterexample for C5 as stated: the converter never honours an
explicitly provided `is_embedding` — a raw record explicitly flagged as an
embedding model whose id lacks the substring converts to
`is_embedding = false`, while the spec's reading (`spec_is_embedding`)
says `true`. -/
theorem explicit_embedding_flag_ignored_cex :
    explicitEmbeddingRaw.is_embedding = some true ∧
    spec_is_embedding explicitEmbeddingRaw = true ∧
    (convertProviderModelToDict explicitEmbeddingRaw).is_embedding = false := by
  decide

/-- C5 (amended): conversion stores the per-million costs divided by
1,000,000 (zero stays zero), builds `model_string` as
`"{provider}:{model_id}"`, truncates a stored description to at most 500
characters (none when the raw description is absent), and infers
`is_embedding` as true exactly when `"embedding"` occurs case-insensitively
in `model_id` — ignoring any explicitly provided flag on the raw record. -/
theorem conversion_fields :
    ∀ m : RawModel,
      (convertProviderModelToDict m).input_cost = m.input_cost / 1000000 ∧
      (convertProviderModelToDict m).output_cost = m.output_cost / 1000000 ∧
      (convertProviderModelToDict m).model_string = m.provider ++ ":" ++ m.model_id ∧
      (m.description = none → (convertProviderModelToDict m).description = none) ∧
      (∀ s, (convertProviderModelToDict m).description = some s →
        s.length ≤ 500 ∧ ∃ s0, m.description = some s0 ∧ s = pyStrSlice s0 500) ∧
      ((convertProviderModelToDict m).is_embedding = true ↔
        pyIn "embedding" (pyLower m.model_id) = true) ∧
      (∀ b, (convertProviderModelToDict { m with is_embedding := b }).is_embedding =
        (convertProviderModelToDict m).is_embedding) := by
  intro m
  refine ⟨?_, ?_, rfl, ?_, ?_, ?_, ?_⟩
  · by_cases h : m.input_cost = 0
    · simp [convertProviderModelToDict, h]
    · simp [convertProviderModelToDict, h]
  · by_cases h : m.output_cost = 0
    · simp [convertProviderModelToDict, h]
    · simp [convertProviderModelToDict, h]
  · intro hnone
    simp [convertProviderModelToDict, truncateDescription, hnone]
  · intro s hs
    simp only [convertProviderModelToDict] at hs
    cases hdesc : m.description with
    | none =>
      rw [hdesc] at hs
      exact absurd hs (by simp [truncateDescription])
    | some s0 =>
      rw [hdesc] at hs
      simp only [truncateDescription] at hs
      by_cases he : s0 = ""
      · rw [if_pos he] at hs
        cases hs
      · rw [if_neg he] at hs
        injection hs with hs'
        subst hs'
        exact ⟨pyStrSlice_length_le s0 500, s0, rfl, rfl⟩
  · constructor
    · intro h
      have h' : (decide (m.model_id ≠ "") &&
          pyIn "embedding" (pyLower m.model_id)) = true := h
      rw [Bool.and_eq_true] at h'
      exact h'.2
    · intro h
      show (decide (m.model_id ≠ "") && pyIn "embedding" (pyLower m.model_id)) = true
      rw [Bool.and_eq_true]
      refine ⟨?_, h⟩
      by_cases hid : m.model_id = ""
      · rw [hid] at h
        exact absurd h (by decide)
      · exact decide_eq_true hid
  · intro b
    rfl

/-- Witness for C5's amended claim: the conversion at a concrete record
with no description stores no description. -/
theorem conversion_fields_witness :
    (convertProviderModelToDict explicitEmbeddingRaw).description = none :=
  (conversion_fields explicitEmbeddingRaw).2.2.2.1 rfl

/-- C6: the Reconciler's classification is a pure function of
`(service_name, model_string)`: agent-style names (`_agent` suffix or
`agent_` prefix) become agents running on the agent runtime with llm
models and tunable temperature/max_tokens; otherwise an `embedding`
occurrence in the name or model string yields an embedding service with
both knobs unsupported; otherwise a backend llm service with both knobs
supported. Concretely, `rag_agent` with `openai:gpt-4o` registers as an
agent defaulting to `openai:gpt-4o`. -/
theorem reconciler_classification :
    (∀ service_name model_string : String,
      (pyEndsWith service_name "_agent" || pyStartsWith service_name "agent_") = true →
      (mkAutoRegistration service_name model_string).category = "agent" ∧
      (mkAutoRegistration service_name model_string).service_type = "pydantic_ai" ∧
      (mkAutoRegistration service_name model_string).model_type = "llm" ∧
      (mkAutoRegistration service_name model_string).supports_temperature = true ∧
      (mkAutoRegistration service_name model_string).supports_max_tokens = true) ∧
    (∀ service_name model_string : String,
      (pyEndsWith service_name "_agent" || pyStartsWith service_name "agent_") = false →
      (pyIn "embedding" service_name || pyIn "embedding" model_string) = true →
      (mkAutoRegistration service_name model_string).category = "service" ∧
      (mkAutoRegistration service_name model_string).service_type = "embedding_service" ∧
      (mkAutoRegistration service_name model_string).model_type = "embedding" ∧
      (mkAutoRegistration service_name model_string).supports_temperature = false ∧
      (mkAutoRegistration service_name model_string).supports_max_tokens = false) ∧
    (∀ service_name model_string : String,
      (pyEndsWith service_name "_agent" || pyStartsWith service_name "agent_") = false →
      (pyIn "embedding" service_name || pyIn "embedding" model_string) = false →
      (mkAutoRegistration service_name model_string).category = "service" ∧
      (mkAutoRegistration service_name model_string).service_type = "backend_service" ∧
      (mkAutoRegistration service_name model_string).model_type = "llm" ∧
      (mkAutoRegistration service_name model_string).supports_temperature = true ∧
      (mkAutoRegistration service_name model_string).supports_max_tokens = true) ∧
    ((mkAutoRegistration "rag_agent" "openai:gpt-4o").category = "agent" ∧
     (mkAutoRegistration "rag_agent" "openai:gpt-4o").default_model =
       some "openai:gpt-4o" ∧
     ∃ r ∈ (sync_registry_with_model_configs
         [{ service_name := "rag_agent", model_string := "openai:gpt-4o" }]
         (fun _ => true)).registrations,
       r.category = "agent" ∧ r.default_model = some "openai:gpt-4o") := by
  refine ⟨?_, ?_, ?_, ?_⟩
  · intro service_name model_string h
    simp [mkAutoRegistration, h]
  · intro service_name model_string hag hemb
    simp [mkAutoRegistration, hag, hemb]
  · intro service_name model_string hag hemb
    simp [mkAutoRegistration, hag, hemb]
  · decide

/-- Witness for C6: the agent branch applied at the concrete pair. -/
theorem reconciler_classification_witness :
    (mkAutoRegistration "rag_agent" "openai:gpt-4o").category = "agent" ∧
    (mkAutoRegistration "rag_agent" "openai:gpt-4o").service_type = "pydantic_ai" ∧
    (mkAutoRegistration "rag_agent" "openai:gpt-4o").model_type = "llm" ∧
    (mkAutoRegistration "rag_agent" "openai:gpt-4o").supports_temperature = true ∧
    (mkAutoRegistration "rag_agent" "openai:gpt-4o").supports_max_tokens = true :=
  reconciler_classification.1 "rag_agent" "openai:gpt-4o" (by decide)

theorem sync_registry_char (u : List UnregisteredService)
    (register_ok : UnregisteredService → Bool) :
    sync_registry_with_model_configs u register_ok =
      { status := "success"
        services_discovered := u.length
        services_registered := (u.filter register_ok).length
        registrations := (u.filter register_ok).map
          (fun s => mkAutoRegistration s.service_name s.model_string) } := by
  unfold sync_registry_with_model_configs
  rw [registry_foldl_spec register_ok u 0 []]
  simp

/-- C7: every registration the Reconciler performs uses
`default_model = model_string`, `owner_team = 'auto-discovered'` and
`cost_profile = 'medium'`; one failed registration does not abort the
batch (every discovered service with a succeeding registration still makes
it into the registry) and only successes are counted, so
`services_registered ≤ services_discovered`, with equality when nothing
fails. -/
theorem registry_sync_best_effort :
    ∀ (unregistered : List UnregisteredService)
      (register_ok : UnregisteredService → Bool),
      (sync_registry_with_model_configs unregistered register_ok).services_discovered
        = unregistered.length ∧
      (sync_registry_with_model_configs unregistered register_ok).services_registered
        = (unregistered.filter register_ok).length ∧
      (sync_registry_with_model_configs unregistered register_ok).services_registered ≤
        (sync_registry_with_model_configs unregistered register_ok).services_discovered ∧
      ((∀ s ∈ unregistered, register_ok s = true) →
        (sync_registry_with_model_configs unregistered register_ok).services_registered
          = (sync_registry_with_model_configs unregistered register_ok).services_discovered) ∧
      (∀ s ∈ unregistered, register_ok s = true →
        mkAutoRegistration s.service_name s.model_string ∈
          (sync_registry_with_model_configs unregistered register_ok).registrations) ∧
      (∀ service_name model_string : String,
        (mkAutoRegistration service_name model_string).default_model =
          some model_string ∧
        (mkAutoRegistration service_name model_string).owner_team =
          some "auto-discovered" ∧
        (mkAutoRegistration service_name model_string).cost_profile =
          some "medium") := by
  intro u register_ok
  refine ⟨?_, ?_, ?_, ?_, ?_, ?_⟩
  · simp [sync_registry_char]
  · simp [sync_registry_char]
  · simp only [sync_registry_char]
    exact List.length_filter_le _ _
  · intro hall
    simp only [sync_registry_char]
    rw [List.filter_eq_self.mpr hall]
  · intro s hs hok
    simp only [sync_registry_char]
    exact List.mem_map_of_mem _ (List.mem_filter.mpr ⟨hs, hok⟩)
  · intro service_name model_string
    by_cases h1 : (pyEndsWith service_name "_agent" ||
        pyStartsWith service_name "agent_") = true
    · simp [mkAutoRegistration, h1]
    · by_cases h2 : (pyIn "embedding" service_name ||
          pyIn "embedding" model_string) = true
      · simp [mkAutoRegistration, h1, h2]
      · simp [mkAutoRegistration, h1, h2]

/-- Witness for C7: a two-service batch where the first registration fails
and the second succeeds — the survivor is still registered and the counts
come out 2 discovered, 1 registered. -/
theorem registry_sync_best_effort_witness :
    mkAutoRegistration "rag_agent" "openai:gpt-4o" ∈
      (sync_registry_with_model_configs
        [{ service_name := "doc_service", model_string := "openai:gpt-4o-mini" },
         { service_name := "rag_agent", model_string := "openai:gpt-4o" }]
        (fun s => s.service_name == "rag_agent")).registrations ∧
    (sync_registry_with_model_configs
        [{ service_name := "doc_service", model_string := "openai:gpt-4o-mini" },
         { service_name := "rag_agent", model_string := "openai:gpt-4o" }]
        (fun s => s.service_name == "rag_agent")).services_discovered = 2 ∧
    (sync_registry_with_model_configs
        [{ service_name := "doc_service", model_string := "openai:gpt-4o-mini" },
         { service_name := "rag_agent", model_string := "openai:gpt-4o" }]
        (fun s => s.service_name == "rag_agent")).services_registered = 1 :=
  ⟨(registry_sync_best_effort
      [{ service_name := "doc_service", model_string := "openai:gpt-4o-mini" },
       { service_name := "rag_agent", model_string := "openai:gpt-4o" }]
      (fun s => s.service_name == "rag_agent")).2.2.2.2.1
      { service_name := "rag_agent", model_string := "openai:gpt-4o" }
      (by decide) (by decide),
    by decide, by decide⟩

end Archon
